import Mathlib

/-!
Verification of the pulumi-talos-cluster orchestration programs.

The repository contains two Go programs (a plain Docker variant, `main.go`,
and a Lima-VM variant) that each register a linear pipeline of
`local.NewCommand` resources.  Each resource carries a create shell script,
an optional delete shell script, an environment map and a `DependsOn` list.
The scripts are plain `/bin/sh` scripts without `set -e`, so a script's exit
status is the status of its last executed command, and `exit n` terminates
the script with status `n`.

We embed each script as a function from a world oracle (the outcomes of the
external commands) to an exit status and a trace of events, mirroring the
script's control flow line by line, and we embed the declared resource graph
of each variant as a list of named steps with dependency lists.
-/

namespace TalosCluster

/-- The messages echoed by the scripts, one constructor per `echo` line
(parameters are the values the shell interpolates into the message). -/
inductive Msg
  /-- "Talos cluster 'talos-local' already exists" -/
  | clusterExists
  /-- "Creating Talos cluster 'talos-local'..." -/
  | creatingCluster
  /-- "Talos cluster 'talos-local' created successfully" -/
  | clusterCreated
  /-- "Destroying Talos cluster 'talos-local'..." -/
  | destroyingCluster
  /-- "Talos cluster 'talos-local' destroyed" -/
  | clusterDestroyed
  /-- "VM talos-docker already exists, checking status..." -/
  | vmAlreadyExists
  /-- "VM talos-docker is already running" -/
  | vmAlreadyRunning
  /-- "Starting existing VM talos-docker..." -/
  | startingVm
  /-- "Creating Lima VM talos-docker..." -/
  | creatingVm
  /-- "Waiting for Docker to be ready..." -/
  | waitingDockerHeader
  /-- "Docker is ready" -/
  | dockerIsReady
  /-- "Waiting for Docker... ($i/30)" -/
  | waitingDocker (i : Nat)
  /-- "Stopping and deleting Lima VM talos-docker..." -/
  | stoppingVm
  /-- "Lima VM talos-docker deleted" -/
  | vmDeleted
  /-- "Exporting kubeconfig to <path>..." -/
  | exportingKubeconfig
  /-- "Kubeconfig exported successfully" -/
  | kubeconfigExported
  /-- "Warning: kubectl not able to connect yet, cluster may still be initializing" -/
  | warningKubectl
  /-- "Waiting for Kubernetes nodes to be ready..." -/
  | waitingNodesHeader
  /-- "All $TOTAL nodes are ready" -/
  | allNodesReady (total : Nat)
  /-- "Waiting for nodes... ($READY/$TOTAL ready)" -/
  | waitingNodes (ready total : Nat)
  /-- "Waiting for system pods..." -/
  | waitingPods
  /-- "Kubernetes is ready" -/
  | k8sReady
deriving DecidableEq, Repr

/-- Observable events of a shell script run: invocation of an external
command, an `echo`, and a `sleep`. -/
inductive Event
  | run (cmd : String)
  | echoed (msg : Msg)
  | slept (secs : Nat)
deriving DecidableEq, Repr

/-- Oracle for the outcomes of the external commands the scripts invoke.
Iteration-indexed fields give the outcome of a probe on the i-th loop
iteration (1-based, as `seq 1 N` numbers them). -/
structure World where
  /-- success of `mkdir -p` in the directory-creation steps -/
  mkdirOk : Bool
  /-- success of `cat <<EOF > ./talos-docker.yaml` -/
  writeLimaConfigOk : Bool
  /-- success of `limactl list --format json | grep -q name` : the VM exists -/
  vmExists : Bool
  /-- success of the second grep: the existing VM has status Running -/
  vmRunning : Bool
  /-- success of `limactl start talos-docker` -/
  limaStartOk : Bool
  /-- success of `limactl create --name=talos-docker ...` -/
  limaCreateOk : Bool
  /-- success of `DOCKER_HOST=... docker info` on iteration i of the docker wait loop -/
  dockerReady : Nat → Bool
  /-- success of the `docker info | grep -E ...` display pipeline after the probe succeeds -/
  dockerShowOk : Bool
  /-- success of `talosctl cluster show --name talos-local` : the cluster exists -/
  clusterExists : Bool
  /-- success of `talosctl cluster create ...` -/
  clusterCreateOk : Bool
  /-- success of `talosctl cluster destroy --name talos-local` -/
  clusterDestroyOk : Bool
  /-- success of `talosctl kubeconfig <path> --force` -/
  talosctlKubeconfigOk : Bool
  /-- success of the silenced `kubectl --kubeconfig <path> get nodes >/dev/null` verification -/
  kubectlVerifyOk : Bool
  /-- success of the visible `kubectl --kubeconfig <path> get nodes` display call -/
  kubectlShowNodesOk : Bool
  /-- number printed by `kubectl get nodes --no-headers | grep -c " Ready "` on iteration i -/
  readyNodes : Nat → Nat
  /-- number printed by `kubectl get nodes --no-headers | wc -l` on iteration i
  (0 when the node list is empty, e.g. when the probe command fails) -/
  totalNodes : Nat → Nat
  /-- success of `kubectl wait --for=condition=Ready pods --all -n kube-system` -/
  kubectlWaitOk : Bool
  /-- success of the final `kubectl get nodes -o wide` -/
  finalGetNodesOk : Bool
  /-- success of `rm -f <kubeconfig path>` -/
  rmKubeconfigOk : Bool
  /-- success of `rm -f ./talos-docker.yaml` -/
  rmLimaConfigOk : Bool
  /-- success of the `kubectl label` and `kubectl apply` hardening commands -/
  hardeningOk : Bool
  /-- success of the `kubectl get nodes` / `kubectl get pods` calls of verify-cluster -/
  verifyShowOk : Bool

/-- Exit status of a command whose success the world oracle reports. -/
def code (ok : Bool) : Nat := if ok then 0 else 1

/-- Result of running a whole shell script: its exit status and its trace. -/
structure RunResult where
  exitCode : Nat
  trace : List Event
deriving DecidableEq, Repr

/-- Result of running one of the bounded polling loops: the number of
iterations that were started, the loop's exit status, and its trace. -/
structure LoopResult where
  iters : Nat
  exitCode : Nat
  trace : List Event
deriving DecidableEq, Repr

/-- Create script of `create-talos-dir` (main.go, no-VM variant):
`mkdir -p <homeDir>/.talos`. -/
def createTalosDirCreate (w : World) : RunResult :=
  { exitCode := code w.mkdirOk
    trace := [.run "mkdir -p ~/.talos"] }

/-- Create script of `create-dirs` (VM variant): `mkdir -p <talosDir> ~/.kube`. -/
def createDirsCreate (w : World) : RunResult :=
  { exitCode := code w.mkdirOk
    trace := [.run "mkdir -p ~/.talos ~/.kube"] }

/-- Create script of `create-lima-config` (VM variant): a here-document that
writes the fixed Lima VM definition to `./talos-docker.yaml`, unconditionally
(no existence probe). -/
def createLimaConfigCreate (w : World) : RunResult :=
  { exitCode := code w.writeLimaConfigOk
    trace := [.run "cat <<EOF > ./talos-docker.yaml"] }

/-- Delete script of `create-lima-config`: `rm -f ./talos-docker.yaml` with no
error suppression, so the script's status is the status of `rm`. -/
def createLimaConfigDelete (w : World) : RunResult :=
  { exitCode := code w.rmLimaConfigOk
    trace := [.run "rm -f ./talos-docker.yaml"] }

/-- The Docker readiness loop of the `lima-vm` create script:
`for i in $(seq 1 30); do if docker info; then echo; docker info | grep;
break; fi; echo waiting; sleep 5; done`, unrolled from iteration `i` with
`fuel` iterations remaining.  On success the loop's status is that of the
display pipeline (the last command before `break`); on exhaustion it is the
status of the final `sleep` (0). -/
def dockerWaitGo (w : World) (i : Nat) : Nat → LoopResult
  | 0 => ⟨0, 0, []⟩
  | fuel + 1 =>
    if w.dockerReady i then
      ⟨1, code w.dockerShowOk,
        [.run "docker info",
         .echoed .dockerIsReady,
         .run "docker info | grep -E Server Version-Operating System"]⟩
    else
      let r := dockerWaitGo w (i + 1) fuel
      ⟨r.iters + 1, r.exitCode,
        [.run "docker info",
         .echoed (.waitingDocker i),
         .slept 5] ++ r.trace⟩

/-- The Docker readiness loop run as the source runs it: `seq 1 30`. -/
def dockerWait (w : World) : LoopResult := dockerWaitGo w 1 30

/-- Create script of `lima-vm` (VM variant): probe the VM registry via
`limactl list --format json | grep -q`; if the VM exists, start it unless it
is already running; otherwise create it and start it; then run the bounded
Docker readiness loop.  The script's status is the loop's status (the loop is
the last statement). -/
def limaVmCreate (w : World) : RunResult :=
  let pre : List Event :=
    if w.vmExists then
      [.run "limactl list --format json | grep -q name talos-docker",
       .echoed .vmAlreadyExists] ++
      (if w.vmRunning then
        [.run "limactl list --format json | grep -A 5 name talos-docker | grep -q status Running",
         .echoed .vmAlreadyRunning]
      else
        [.run "limactl list --format json | grep -A 5 name talos-docker | grep -q status Running",
         .echoed .startingVm,
         .run "limactl start talos-docker"])
    else
      [.run "limactl list --format json | grep -q name talos-docker",
       .echoed .creatingVm,
       .run "limactl create --name=talos-docker ./talos-docker.yaml --tty=false",
       .run "limactl start talos-docker"]
  let loop := dockerWait w
  { exitCode := loop.exitCode
    trace := pre ++ [.echoed .waitingDockerHeader] ++ loop.trace }

/-- Delete script of `lima-vm`: `limactl stop ... || true` and
`limactl delete ... || true` followed by an `echo`, so it always exits 0. -/
def limaVmDelete (_w : World) : RunResult :=
  { exitCode := 0
    trace := [.echoed .stoppingVm,
              .run "limactl stop talos-docker",
              .run "limactl delete talos-docker --force",
              .echoed .vmDeleted] }

/-- Create script of `create-talos-cluster` (the same script text in both
variants): probe with `talosctl cluster show --name talos-local`; if it
succeeds, echo and `exit 0` without creating; otherwise run
`talosctl cluster create --name talos-local --controlplanes 1 --workers 2
--wait --wait-timeout 10m` followed by an `echo` (the last command, so the
script exits 0 in both branches: there is no `set -e`). -/
def createClusterCreate (w : World) : RunResult :=
  if w.clusterExists then
    { exitCode := 0
      trace := [.run "talosctl cluster show --name talos-local",
                .echoed .clusterExists] }
  else
    { exitCode := 0
      trace := [.run "talosctl cluster show --name talos-local",
                .echoed .creatingCluster,
                .run "talosctl cluster create --name talos-local --controlplanes 1 --workers 2 --wait --wait-timeout 10m",
                .echoed .clusterCreated] }

/-- Delete script of `create-talos-cluster` (both variants):
`talosctl cluster destroy ... 2>/dev/null || true` between two `echo`s, so it
always exits 0 whatever the destroy command does. -/
def createClusterDelete (_w : World) : RunResult :=
  { exitCode := 0
    trace := [.echoed .destroyingCluster,
              .run "talosctl cluster destroy --name talos-local",
              .echoed .clusterDestroyed] }

/-- Create script of `export-kubeconfig` (both variants): echo, `sleep 5`,
run `talosctl kubeconfig <path> --force` unconditionally (no existence probe,
`--force` overwrites), then verify with a silenced `kubectl get nodes`; on
verification success the script ends with the visible `kubectl get nodes`
display call (whose status becomes the script's status), on failure it ends
with a warning `echo`, exiting 0. -/
def exportKubeconfigCreate (w : World) : RunResult :=
  let pre : List Event :=
    [.echoed .exportingKubeconfig,
     .slept 5,
     .run "talosctl kubeconfig ~/.kube/talos-config --force",
     .run "kubectl --kubeconfig ~/.kube/talos-config get nodes >/dev/null"]
  if w.kubectlVerifyOk then
    { exitCode := code w.kubectlShowNodesOk
      trace := pre ++ [.echoed .kubeconfigExported,
                       .run "kubectl --kubeconfig ~/.kube/talos-config get nodes"] }
  else
    { exitCode := 0
      trace := pre ++ [.echoed .warningKubectl] }

/-- Delete script of `export-kubeconfig` (both variants):
`rm -f <kubeconfig path>` with no error suppression, so the script's status
is the status of `rm`. -/
def exportKubeconfigDelete (w : World) : RunResult :=
  { exitCode := code w.rmKubeconfigOk
    trace := [.run "rm -f ~/.kube/talos-config"] }

/-- The break condition of the node readiness loop:
`[ "$READY" = "$TOTAL" ] && [ "$TOTAL" -gt 0 ]`. -/
def nodesReadyCond (ready total : Nat) : Bool :=
  (ready == total) && decide (total > 0)

/-- The node readiness loop of the `wait-for-kubernetes` create script
(identical in both variants): `for i in $(seq 1 60)`, each iteration
computing READY and TOTAL by two `kubectl get nodes --no-headers`
invocations, breaking when `nodesReadyCond`, else echoing a progress message
and sleeping 5 seconds.  Unrolled from iteration `i` with `fuel` iterations
remaining; the loop's status is 0 both on break (the `echo` before `break`)
and on exhaustion (the final `sleep`). -/
def nodesWaitGo (w : World) (i : Nat) : Nat → LoopResult
  | 0 => ⟨0, 0, []⟩
  | fuel + 1 =>
    let ready := w.readyNodes i
    let total := w.totalNodes i
    if nodesReadyCond ready total then
      ⟨1, 0,
        [.run "kubectl get nodes --no-headers | grep -c Ready",
         .run "kubectl get nodes --no-headers | wc -l",
         .echoed (.allNodesReady total)]⟩
    else
      let r := nodesWaitGo w (i + 1) fuel
      ⟨r.iters + 1, r.exitCode,
        [.run "kubectl get nodes --no-headers | grep -c Ready",
         .run "kubectl get nodes --no-headers | wc -l",
         .echoed (.waitingNodes ready total),
         .slept 5] ++ r.trace⟩

/-- The node readiness loop run as the source runs it: `seq 1 60`. -/
def nodesWait (w : World) : LoopResult := nodesWaitGo w 1 60

/-- Create script of `wait-for-kubernetes` (both variants): the bounded node
readiness loop, then `kubectl wait ... || true` for system pods, then
`echo "Kubernetes is ready"` and a final `kubectl get nodes -o wide`, whose
status is the script's status (it is the last command; there is no `set -e`
and loop exhaustion produces no failure and no warning echo). -/
def waitForK8sCreate (w : World) : RunResult :=
  let loop := nodesWait w
  { exitCode := code w.finalGetNodesOk
    trace := [.echoed .waitingNodesHeader] ++ loop.trace ++
             [.echoed .waitingPods,
              .run "kubectl wait --for=condition=Ready pods --all -n kube-system --timeout=300s",
              .echoed .k8sReady,
              .run "kubectl get nodes -o wide"] }

/-- One `kubectl label namespace <ns> <key>=<value> --overwrite` operation of
the hardening script. -/
structure LabelOp where
  ns : String
  key : String
  value : String
  overwrite : Bool
deriving DecidableEq, Repr

/-- One egress rule of a NetworkPolicy in the hardening here-document:
a namespaceSelector label match plus a list of (protocol, port) pairs. -/
structure EgressRule where
  nsMatchLabel : String × String
  ports : List (String × Nat)
deriving DecidableEq, Repr

/-- One NetworkPolicy object of the hardening here-document. -/
structure NetworkPolicy where
  name : String
  ns : String
  policyTypes : List String
  egress : List EgressRule
deriving DecidableEq, Repr

/-- The label operations of the `apply-security-hardening` create script, in
source order (identical text in both variants): Pod Security Standards
enforce and warn levels for the kube-system and default namespaces, each
with `--overwrite`. -/
def hardeningLabelOps : List LabelOp :=
  [⟨"kube-system", "pod-security.kubernetes.io/enforce", "privileged", true⟩,
   ⟨"kube-system", "pod-security.kubernetes.io/warn", "baseline", true⟩,
   ⟨"default", "pod-security.kubernetes.io/enforce", "restricted", true⟩,
   ⟨"default", "pod-security.kubernetes.io/warn", "restricted", true⟩]

/-- The NetworkPolicy objects piped to `kubectl apply -f -` by the hardening
script (identical text in both variants): a default-deny-all policy and an
allow-dns egress policy, both in the default namespace. -/
def hardeningNetworkPolicies : List NetworkPolicy :=
  [⟨"default-deny-all", "default", ["Ingress", "Egress"], []⟩,
   ⟨"allow-dns", "default", ["Egress"],
    [⟨("kubernetes.io/metadata.name", "kube-system"), [("UDP", 53), ("TCP", 53)]⟩]⟩]

/-- The actions of the `apply-security-hardening` create script: the four
label operations, then a single `kubectl apply` of the two NetworkPolicy
manifests.  The payload is a constant: no templating and no conditionals. -/
inductive HardenAction
  | label (op : LabelOp)
  | applyManifests (ps : List NetworkPolicy)
deriving DecidableEq, Repr

/-- The fixed hardening payload submitted on every run, in source order. -/
def hardeningActions : List HardenAction :=
  (hardeningLabelOps.map .label) ++ [.applyManifests hardeningNetworkPolicies]

/-- Predicate selecting the label operations of the hardening payload. -/
def HardenAction.isLabelOp : HardenAction → Bool
  | .label _ => true
  | .applyManifests _ => false

/-- A declared pipeline step: the resource name passed to
`local.NewCommand` and the names of the resources in its `DependsOn` list. -/
structure Step where
  name : String
  deps : List String
deriving DecidableEq, Repr

/-- The resource graph declared by `main.go` (no-VM variant), in registration
order, with the `DependsOn` lists exactly as in the source. -/
def pipelineMain : List Step :=
  [⟨"create-talos-dir", []⟩,
   ⟨"create-talos-cluster", ["create-talos-dir"]⟩,
   ⟨"export-kubeconfig", ["create-talos-cluster"]⟩,
   ⟨"wait-for-kubernetes", ["export-kubeconfig"]⟩,
   ⟨"apply-security-hardening", ["wait-for-kubernetes"]⟩,
   ⟨"verify-cluster", ["apply-security-hardening"]⟩]

/-- The resource graph declared by the Lima-VM variant, in registration
order.  `create-lima-config` declares no dependency, and `lima-vm` declares
two dependencies. -/
def pipelineVm : List Step :=
  [⟨"create-dirs", []⟩,
   ⟨"create-lima-config", []⟩,
   ⟨"lima-vm", ["create-dirs", "create-lima-config"]⟩,
   ⟨"create-talos-cluster", ["lima-vm"]⟩,
   ⟨"export-kubeconfig", ["create-talos-cluster"]⟩,
   ⟨"wait-for-kubernetes", ["export-kubeconfig"]⟩,
   ⟨"apply-security-hardening", ["wait-for-kubernetes"]⟩,
   ⟨"verify-cluster", ["apply-security-hardening"]⟩]

/-- Outcome of a step under the engine's dependency semantics: whether its
create-action was executed and whether it succeeded. -/
structure StepOutcome where
  name : String
  ran : Bool
  succeeded : Bool
deriving DecidableEq, Repr

/-- Look up whether a named step succeeded among the outcomes so far; a step
not present has not succeeded. -/
def succeededIn (outs : List StepOutcome) (n : String) : Bool :=
  match outs.find? (fun o => o.name == n) with
  | some o => o.succeeded
  | none => false

/-- Modelled from the Pulumi engine's `DependsOn` contract (the engine itself
is not part of this repository): a resource's create-action executes only
when every resource it depends on has succeeded, and it succeeds when it
executes and its command exits 0 (`ok` gives each step's command outcome). -/
def runStepsAux (ok : String → Bool) (acc : List StepOutcome) : List Step → List StepOutcome
  | [] => acc
  | s :: rest =>
    let r := s.deps.all (succeededIn acc)
    runStepsAux ok (acc ++ [⟨s.name, r, r && ok s.name⟩]) rest

/-- Run a declared pipeline under the engine's dependency semantics. -/
def runSteps (ok : String → Bool) (ps : List Step) : List StepOutcome :=
  runStepsAux ok [] ps

/-- Whether the named step's create-action executed in an outcome list. -/
def ranIn (outs : List StepOutcome) (n : String) : Bool :=
  match outs.find? (fun o => o.name == n) with
  | some o => o.ran
  | none => false

/-- A pipeline is a strict chain when its first step declares no dependency
and every later step declares exactly its immediate predecessor. -/
def chainAfter (prev : String) : List Step → Bool
  | [] => true
  | s :: rest => (s.deps == [prev]) && chainAfter s.name rest

/-- Whether a declared pipeline forms a strict chain. -/
def isStrictChain : List Step → Bool
  | [] => true
  | s :: rest => (s.deps == []) && chainAfter s.name rest

/-- The create script of `create-talos-cluster` in `main.go`, line by line,
exactly as `fmt.Sprintf` produces it with `clusterName = "talos-local"`
substituted for every `%s` (the raw string is tab-indented in the source). -/
def mainClusterCreateLines : List String :=
  ["",
   "\t\t\t\t# Check if cluster already exists",
   "\t\t\t\tif /opt/homebrew/bin/talosctl cluster show --name talos-local >/dev/null 2>&1; then",
   "\t\t\t\t\techo \"Talos cluster \x27talos-local\x27 already exists\"",
   "\t\t\t\t\texit 0",
   "\t\t\t\tfi",
   "",
   "\t\t\t\techo \"Creating Talos cluster \x27talos-local\x27...\"",
   "",
   "\t\t\t\t# Create cluster with Docker provisioner",
   "\t\t\t\t# 1 control-plane + 2 workers for HA testing",
   "\t\t\t\t/opt/homebrew/bin/talosctl cluster create \\",
   "\t\t\t\t\t--name talos-local \\",
   "\t\t\t\t\t--controlplanes 1 \\",
   "\t\t\t\t\t--workers 2 \\",
   "\t\t\t\t\t--wait \\",
   "\t\t\t\t\t--wait-timeout 10m",
   "",
   "\t\t\t\techo \"Talos cluster \x27talos-local\x27 created successfully\"",
   "\t\t\t"]

/-- The create script of `create-talos-cluster` in the Lima-VM variant, line
by line, exactly as `fmt.Sprintf` produces it. -/
def vmClusterCreateLines : List String :=
  ["",
   "\t\t\t\t# Check if cluster already exists",
   "\t\t\t\tif /opt/homebrew/bin/talosctl cluster show --name talos-local >/dev/null 2>&1; then",
   "\t\t\t\t\techo \"Talos cluster \x27talos-local\x27 already exists\"",
   "\t\t\t\t\texit 0",
   "\t\t\t\tfi",
   "",
   "\t\t\t\techo \"Creating Talos cluster \x27talos-local\x27...\"",
   "",
   "\t\t\t\t# Create cluster with Docker provisioner",
   "\t\t\t\t# 1 control-plane + 2 workers",
   "\t\t\t\t/opt/homebrew/bin/talosctl cluster create \\",
   "\t\t\t\t\t--name talos-local \\",
   "\t\t\t\t\t--controlplanes 1 \\",
   "\t\t\t\t\t--workers 2 \\",
   "\t\t\t\t\t--wait \\",
   "\t\t\t\t\t--wait-timeout 10m",
   "",
   "\t\t\t\techo \"Talos cluster \x27talos-local\x27 created successfully\"",
   "\t\t\t"]

/-- The delete script of `create-talos-cluster` in `main.go`, line by line. -/
def mainClusterDeleteLines : List String :=
  ["",
   "\t\t\t\techo \"Destroying Talos cluster \x27talos-local\x27...\"",
   "\t\t\t\t/opt/homebrew/bin/talosctl cluster destroy --name talos-local 2>/dev/null || true",
   "\t\t\t\techo \"Talos cluster \x27talos-local\x27 destroyed\"",
   "\t\t\t"]

/-- The delete script of `create-talos-cluster` in the Lima-VM variant, line
by line. -/
def vmClusterDeleteLines : List String :=
  ["",
   "\t\t\t\techo \"Destroying Talos cluster \x27talos-local\x27...\"",
   "\t\t\t\t/opt/homebrew/bin/talosctl cluster destroy --name talos-local 2>/dev/null || true",
   "\t\t\t\techo \"Talos cluster \x27talos-local\x27 destroyed\"",
   "\t\t\t"]

/-- The full create script text of `main.go`'s cluster step. -/
def mainClusterCreateScript : String := String.intercalate "\n" mainClusterCreateLines

/-- The full create script text of the VM variant's cluster step. -/
def vmClusterCreateScript : String := String.intercalate "\n" vmClusterCreateLines

/-- The full delete script text of `main.go`'s cluster step. -/
def mainClusterDeleteScript : String := String.intercalate "\n" mainClusterDeleteLines

/-- The full delete script text of the VM variant's cluster step. -/
def vmClusterDeleteScript : String := String.intercalate "\n" vmClusterDeleteLines

/-- Environment map of `main.go`'s cluster step (`filepath.Join` modelled as
separator concatenation). -/
def mainClusterEnv (homeDir : String) : List (String × String) :=
  [("TALOSCONFIG", homeDir ++ "/.talos/config")]

/-- Environment map of the VM variant's cluster step: the same TALOSCONFIG
entry plus DOCKER_HOST pointing at the forwarded Lima Docker socket. -/
def vmClusterEnv (homeDir : String) : List (String × String) :=
  [("TALOSCONFIG", homeDir ++ "/.talos/config"),
   ("DOCKER_HOST", "unix://" ++ homeDir ++ "/.lima/talos-docker/sock/docker.sock")]

/-- Whether an event is a 5-second sleep. -/
def Event.isSleepFive : Event → Bool
  | .slept n => n == 5
  | _ => false

/-- Whether an event is an invocation of the external command `c`. -/
def Event.isRunOf (c : String) : Event → Bool
  | .run d => d == c
  | _ => false

/-- Whether an event is an `echo` whose message starts with `Warning`. -/
def Event.isWarningEcho : Event → Bool
  | .echoed m => m == .warningKubectl
  | _ => false

/-- A world in which every external command succeeds and every probe reports
its target already in place (an established, healthy deployment). -/
def wAllOk : World :=
  { mkdirOk := true, writeLimaConfigOk := true, vmExists := true, vmRunning := true,
    limaStartOk := true, limaCreateOk := true, dockerReady := fun _ => true,
    dockerShowOk := true, clusterExists := true, clusterCreateOk := true,
    clusterDestroyOk := true, talosctlKubeconfigOk := true, kubectlVerifyOk := true,
    kubectlShowNodesOk := true, readyNodes := fun _ => 3, totalNodes := fun _ => 3,
    kubectlWaitOk := true, finalGetNodesOk := true, rmKubeconfigOk := true,
    rmLimaConfigOk := true, hardeningOk := true, verifyShowOk := true }

/-- A world in which the readiness conditions are never met (Docker never
answers, the node list stays empty) and the final node query also fails, as
when the API server is unreachable. -/
def wStalled : World :=
  { wAllOk with dockerReady := fun _ => false, readyNodes := fun _ => 0,
                totalNodes := fun _ => 0, finalGetNodesOk := false }

/-- Like `wStalled`, but the final `kubectl get nodes -o wide` succeeds. -/
def wStalledOk : World := { wStalled with finalGetNodesOk := true }

/-- A world in which `rm -f` fails (for example, a permission error). -/
def wRmFails : World := { wAllOk with rmKubeconfigOk := false, rmLimaConfigOk := false }

/-- A world in which the kubeconfig extraction succeeds but the kubectl
connectivity verification fails. -/
def wVerifyFails : World := { wAllOk with kubectlVerifyOk := false }

/-- Step-command outcomes in which only the VM variant's directory-creation
step fails. -/
def okDirsFail : String → Bool := fun n => !(n == "create-dirs")

theorem code_eq_zero_iff (b : Bool) : code b = 0 ↔ b = true := by
  cases b <;> simp [code]

theorem dockerWaitGo_iters_le (w : World) :
    ∀ fuel i, (dockerWaitGo w i fuel).iters ≤ fuel := by
  intro fuel
  induction fuel with
  | zero => intro i; simp [dockerWaitGo]
  | succ n ih =>
    intro i
    by_cases h : w.dockerReady i
    · simp [dockerWaitGo, h]
    · simp only [dockerWaitGo, h, Bool.false_eq_true, if_false]
      exact Nat.succ_le_succ (ih (i + 1))

theorem nodesWaitGo_iters_le (w : World) :
    ∀ fuel i, (nodesWaitGo w i fuel).iters ≤ fuel := by
  intro fuel
  induction fuel with
  | zero => intro i; simp [nodesWaitGo]
  | succ n ih =>
    intro i
    by_cases h : nodesReadyCond (w.readyNodes i) (w.totalNodes i)
    · simp [nodesWaitGo, h]
    · simp only [nodesWaitGo, h, Bool.false_eq_true, if_false]
      exact Nat.succ_le_succ (ih (i + 1))

theorem nodesWaitGo_exit_zero (w : World) :
    ∀ fuel i, (nodesWaitGo w i fuel).exitCode = 0 := by
  intro fuel
  induction fuel with
  | zero => intro i; simp [nodesWaitGo]
  | succ n ih =>
    intro i
    by_cases h : nodesReadyCond (w.readyNodes i) (w.totalNodes i)
    · simp [nodesWaitGo, h]
    · simp only [nodesWaitGo, h, Bool.false_eq_true, if_false]
      exact ih (i + 1)

theorem dockerWaitGo_stalled (w : World) (h : ∀ j, w.dockerReady j = false) :
    ∀ fuel i, (dockerWaitGo w i fuel).iters = fuel ∧
      (dockerWaitGo w i fuel).trace.countP Event.isSleepFive = fuel ∧
      (dockerWaitGo w i fuel).trace.countP (Event.isRunOf "docker info") = fuel := by
  intro fuel
  induction fuel with
  | zero => intro i; simp [dockerWaitGo]
  | succ n ih =>
    intro i
    obtain ⟨h1, h2, h3⟩ := ih (i + 1)
    simp [dockerWaitGo, h i, List.countP_cons, Event.isSleepFive, Event.isRunOf,
      h1, h2, h3, Nat.add_comm]

theorem nodesWaitGo_stalled (w : World)
    (h : ∀ j, nodesReadyCond (w.readyNodes j) (w.totalNodes j) = false) :
    ∀ fuel i, (nodesWaitGo w i fuel).iters = fuel ∧
      (nodesWaitGo w i fuel).trace.countP Event.isSleepFive = fuel ∧
      (nodesWaitGo w i fuel).trace.countP
        (Event.isRunOf "kubectl get nodes --no-headers | grep -c Ready") = fuel ∧
      (nodesWaitGo w i fuel).trace.countP
        (Event.isRunOf "kubectl get nodes --no-headers | wc -l") = fuel := by
  intro fuel
  induction fuel with
  | zero => intro i; simp [nodesWaitGo]
  | succ n ih =>
    intro i
    obtain ⟨h1, h2, h3, h4⟩ := ih (i + 1)
    simp [nodesWaitGo, h i, List.countP_cons, Event.isSleepFive, Event.isRunOf,
      h1, h2, h3, h4, Nat.add_comm]

theorem dockerWaitGo_no_run (w : World) (c : String)
    (hc1 : c ≠ "docker info")
    (hc2 : c ≠ "docker info | grep -E Server Version-Operating System") :
    ∀ fuel i, Event.run c ∉ (dockerWaitGo w i fuel).trace := by
  intro fuel
  induction fuel with
  | zero => intro i; simp [dockerWaitGo]
  | succ n ih =>
    intro i
    by_cases h : w.dockerReady i
    · simp [dockerWaitGo, h, hc1, hc2]
    · simp [dockerWaitGo, h, hc1, hc2]
      exact ih (i + 1)

theorem nodesWaitGo_iters_pos (w : World) (i fuel : Nat) :
    1 ≤ (nodesWaitGo w i (fuel + 1)).iters := by
  by_cases h : nodesReadyCond (w.readyNodes i) (w.totalNodes i)
  · simp [nodesWaitGo, h]
  · simp [nodesWaitGo, h]

theorem nodesWaitGo_break_iff (w : World) (i fuel : Nat) :
    (nodesWaitGo w i (fuel + 2)).iters = 1 ↔
      nodesReadyCond (w.readyNodes i) (w.totalNodes i) = true := by
  by_cases h : nodesReadyCond (w.readyNodes i) (w.totalNodes i)
  · simp [nodesWaitGo, h]
  · simp [nodesWaitGo, h]
    split <;> simp

/-- Claim C1, as stated, is false: the `export-kubeconfig` step's
create-action has no existence probe and runs its creation command
(`talosctl kubeconfig ... --force`) unconditionally — even in a world where
everything already exists after a successful first run. -/
theorem claim_C1_cex :
    wAllOk.clusterExists = true ∧
    Event.run "talosctl kubeconfig ~/.kube/talos-config --force" ∈
      (exportKubeconfigCreate wAllOk).trace := by decide

/-- Claim C1 (amended): only the VM-provisioning and cluster-creation steps
probe for an existing target and short-circuit: when the cluster exists the
cluster step exits 0 without running `talosctl cluster create`, and when the
VM exists and is running the VM step runs neither `limactl create` nor
`limactl start`; the kubeconfig-export step, by contrast, always runs its
extraction command (relying on `--force` overwrite semantics), so a second
run re-creates no cluster and no VM but does re-export the kubeconfig. -/
theorem claim_C1 (w : World) (hc : w.clusterExists = true)
    (hv : w.vmExists = true) (hr : w.vmRunning = true) :
    (createClusterCreate w).exitCode = 0 ∧
    Event.run "talosctl cluster create --name talos-local --controlplanes 1 --workers 2 --wait --wait-timeout 10m" ∉
      (createClusterCreate w).trace ∧
    Event.run "limactl create --name=talos-docker ./talos-docker.yaml --tty=false" ∉
      (limaVmCreate w).trace ∧
    Event.run "limactl start talos-docker" ∉ (limaVmCreate w).trace ∧
    Event.run "talosctl kubeconfig ~/.kube/talos-config --force" ∈
      (exportKubeconfigCreate w).trace := by
  refine ⟨by simp [createClusterCreate, hc], by simp [createClusterCreate, hc], ?_, ?_, ?_⟩
  · have hloop := dockerWaitGo_no_run w
      "limactl create --name=talos-docker ./talos-docker.yaml --tty=false"
      (by decide) (by decide) 30 1
    simp [limaVmCreate, hv, hr, dockerWait]
    exact hloop
  · have hloop := dockerWaitGo_no_run w "limactl start talos-docker"
      (by decide) (by decide) 30 1
    simp [limaVmCreate, hv, hr, dockerWait]
    exact hloop
  · by_cases h : w.kubectlVerifyOk <;> simp [exportKubeconfigCreate, h]

/-- Claim C1 witness: the amended statement instantiated at the all-exists
world. -/
theorem claim_C1_witness :
    (createClusterCreate wAllOk).exitCode = 0 ∧
    Event.run "talosctl cluster create --name talos-local --controlplanes 1 --workers 2 --wait --wait-timeout 10m" ∉
      (createClusterCreate wAllOk).trace ∧
    Event.run "limactl create --name=talos-docker ./talos-docker.yaml --tty=false" ∉
      (limaVmCreate wAllOk).trace ∧
    Event.run "limactl start talos-docker" ∉ (limaVmCreate wAllOk).trace ∧
    Event.run "talosctl kubeconfig ~/.kube/talos-config --force" ∈
      (exportKubeconfigCreate wAllOk).trace :=
  claim_C1 wAllOk rfl rfl rfl

/-- Claim C2: both readiness loops are bounded — for every world the Docker
loop starts at most 30 iterations and the node loop at most 60 — and when
the readiness conditions are never met each loop exhausts its cap exactly,
every iteration running its status probe and a 5-second sleep (the node
loop's probe is the READY/TOTAL pair of `kubectl get nodes` invocations,
each appearing once per iteration). -/
theorem claim_C2 (w : World)
    (hd : ∀ j, w.dockerReady j = false)
    (hn : ∀ j, nodesReadyCond (w.readyNodes j) (w.totalNodes j) = false) :
    (∀ v : World, (dockerWait v).iters ≤ 30 ∧ (nodesWait v).iters ≤ 60) ∧
    (dockerWait w).iters = 30 ∧
    (dockerWait w).trace.countP Event.isSleepFive = 30 ∧
    (dockerWait w).trace.countP (Event.isRunOf "docker info") = 30 ∧
    (nodesWait w).iters = 60 ∧
    (nodesWait w).trace.countP Event.isSleepFive = 60 ∧
    (nodesWait w).trace.countP
      (Event.isRunOf "kubectl get nodes --no-headers | grep -c Ready") = 60 ∧
    (nodesWait w).trace.countP
      (Event.isRunOf "kubectl get nodes --no-headers | wc -l") = 60 := by
  obtain ⟨d1, d2, d3⟩ := dockerWaitGo_stalled w hd 30 1
  obtain ⟨n1, n2, n3, n4⟩ := nodesWaitGo_stalled w hn 60 1
  exact ⟨fun v => ⟨dockerWaitGo_iters_le v 30 1, nodesWaitGo_iters_le v 60 1⟩,
    d1, d2, d3, n1, n2, n3, n4⟩

/-- Claim C2 witness: the bounds and exact exhaustion counts at the stalled
world in which no readiness condition is ever met. -/
theorem claim_C2_witness :
    (dockerWait wStalled).iters = 30 ∧
    (dockerWait wStalled).trace.countP Event.isSleepFive = 30 ∧
    (nodesWait wStalled).iters = 60 ∧
    (nodesWait wStalled).trace.countP Event.isSleepFive = 60 ∧
    (dockerWait wAllOk).iters ≤ 30 ∧ (nodesWait wAllOk).iters ≤ 60 := by
  have h := claim_C2 wStalled (fun j => rfl) (fun j => rfl)
  exact ⟨h.2.1, h.2.2.1, h.2.2.2.2.1, h.2.2.2.2.2.1, (h.1 wAllOk).1, (h.1 wAllOk).2⟩

set_option maxRecDepth 8000 in
/-- Claim C3, as stated, is false: in a world where the node list stays
empty (the loop exhausts all 60 iterations) and the final
`kubectl get nodes -o wide` fails — as when the API server is unreachable —
the `wait-for-kubernetes` step exits with a nonzero status, and its trace
contains no warning echo. -/
theorem claim_C3_cex :
    (nodesWait wStalled).iters = 60 ∧
    (waitForK8sCreate wStalled).exitCode ≠ 0 ∧
    (waitForK8sCreate wStalled).trace.countP Event.isWarningEcho = 0 := by decide

/-- Claim C3 (amended): exhaustion of the node readiness loop is not itself
a failure — the loop always exits with status 0 and execution proceeds to
the commands after it (the error-suppressed system-pod wait, a readiness
echo, and a final `kubectl get nodes -o wide`) — but the step's exit status
is that of that final command, so the step succeeds and the pipeline
proceeds exactly when the final status query succeeds; the script echoes
only per-iteration progress messages, not an exhaustion warning. -/
theorem claim_C3 (w : World)
    (hn : ∀ j, nodesReadyCond (w.readyNodes j) (w.totalNodes j) = false) :
    (nodesWait w).iters = 60 ∧
    (nodesWait w).exitCode = 0 ∧
    Event.run "kubectl wait --for=condition=Ready pods --all -n kube-system --timeout=300s" ∈
      (waitForK8sCreate w).trace ∧
    Event.echoed .k8sReady ∈ (waitForK8sCreate w).trace ∧
    Event.run "kubectl get nodes -o wide" ∈ (waitForK8sCreate w).trace ∧
    ((waitForK8sCreate w).exitCode = 0 ↔ w.finalGetNodesOk = true) := by
  obtain ⟨n1, _, _, _⟩ := nodesWaitGo_stalled w hn 60 1
  refine ⟨n1, nodesWaitGo_exit_zero w 60 1, ?_, ?_, ?_, ?_⟩
  · simp [waitForK8sCreate]
  · simp [waitForK8sCreate]
  · simp [waitForK8sCreate]
  · simp [waitForK8sCreate, code_eq_zero_iff]

/-- Claim C3 witness: at the stalled world whose final status query
succeeds, the loop exhausts and the step exits 0. -/
theorem claim_C3_witness :
    (nodesWait wStalledOk).iters = 60 ∧
    (waitForK8sCreate wStalledOk).exitCode = 0 := by
  have h := claim_C3 wStalledOk (fun j => rfl)
  exact ⟨h.1, h.2.2.2.2.2.mpr rfl⟩

/-- Step-command outcomes in which every step's command fails. -/
def okAllFail : String → Bool := fun _ => false

/-- Claim C4, as stated, is false for the VM variant: when its initial
directory-creation step `create-dirs` fails, the subsequent step
`create-lima-config` still executes, because it declares no dependency. -/
theorem claim_C4_cex :
    okDirsFail "create-dirs" = false ∧
    ranIn (runSteps okDirsFail pipelineVm) "create-lima-config" = true := by decide

/-- Claim C4 (amended): a step's create-action executes only after every
step in its `DependsOn` list succeeded.  In the no-VM variant, failure of
`create-talos-dir` therefore blocks every other step; in the VM variant,
failure of `create-dirs` blocks `lima-vm` and everything after it, but
`create-lima-config` declares no dependency on the directory step and still
executes. -/
theorem claim_C4 (ok : String → Bool)
    (h1 : ok "create-talos-dir" = false) (h2 : ok "create-dirs" = false) :
    (ranIn (runSteps ok pipelineMain) "create-talos-cluster" = false ∧
     ranIn (runSteps ok pipelineMain) "export-kubeconfig" = false ∧
     ranIn (runSteps ok pipelineMain) "wait-for-kubernetes" = false ∧
     ranIn (runSteps ok pipelineMain) "apply-security-hardening" = false ∧
     ranIn (runSteps ok pipelineMain) "verify-cluster" = false) ∧
    (ranIn (runSteps ok pipelineVm) "create-lima-config" = true ∧
     ranIn (runSteps ok pipelineVm) "lima-vm" = false ∧
     ranIn (runSteps ok pipelineVm) "create-talos-cluster" = false ∧
     ranIn (runSteps ok pipelineVm) "export-kubeconfig" = false ∧
     ranIn (runSteps ok pipelineVm) "wait-for-kubernetes" = false ∧
     ranIn (runSteps ok pipelineVm) "apply-security-hardening" = false ∧
     ranIn (runSteps ok pipelineVm) "verify-cluster" = false) := by
  simp [runSteps, runStepsAux, pipelineMain, pipelineVm, succeededIn, ranIn, h1, h2]

/-- Claim C4 witness: the amended statement instantiated at outcomes where
every command fails. -/
theorem claim_C4_witness :
    okAllFail "create-talos-dir" = false ∧
    ranIn (runSteps okAllFail pipelineMain) "verify-cluster" = false ∧
    ranIn (runSteps okAllFail pipelineVm) "create-lima-config" = true ∧
    ranIn (runSteps okAllFail pipelineVm) "lima-vm" = false := by
  have h := claim_C4 okAllFail rfl rfl
  exact ⟨rfl, h.1.2.2.2.2, h.2.1, h.2.2.1⟩

/-- Claim C5, as stated, is false: the `export-kubeconfig` step's
delete-action is a bare `rm -f` with no error suppression, so in a world
where `rm` itself fails (for example, a permission error) the delete command
exits with a nonzero status. -/
theorem claim_C5_cex :
    wRmFails.rmKubeconfigOk = false ∧
    (exportKubeconfigDelete wRmFails).exitCode ≠ 0 := by decide

/-- Claim C5 (amended): the cluster-destroy and VM-deletion delete-actions
suppress their errors (`|| true` plus a trailing `echo`) and exit 0 for
every outcome of the underlying commands, but the two file-removal
delete-actions are bare `rm -f` commands whose status becomes the step's
status: they tolerate a missing file yet fail whenever `rm` itself fails. -/
theorem claim_C5 (w : World) :
    (createClusterDelete w).exitCode = 0 ∧
    (limaVmDelete w).exitCode = 0 ∧
    ((exportKubeconfigDelete w).exitCode = 0 ↔ w.rmKubeconfigOk = true) ∧
    ((createLimaConfigDelete w).exitCode = 0 ↔ w.rmLimaConfigOk = true) :=
  ⟨rfl, rfl, by simp [exportKubeconfigDelete, code_eq_zero_iff],
   by simp [createLimaConfigDelete, code_eq_zero_iff]⟩

/-- Claim C5 witness: the amended statement instantiated at the all-ok
world. -/
theorem claim_C5_witness :
    (createClusterDelete wAllOk).exitCode = 0 ∧
    (limaVmDelete wAllOk).exitCode = 0 ∧
    ((exportKubeconfigDelete wAllOk).exitCode = 0 ↔ wAllOk.rmKubeconfigOk = true) ∧
    ((createLimaConfigDelete wAllOk).exitCode = 0 ↔ wAllOk.rmLimaConfigOk = true) :=
  claim_C5 wAllOk

/-- Claim C6, as stated, is false: in the VM variant the dependency graph is
not a strict chain — `create-dirs` and `create-lima-config` are two
independent root steps (parallel branches), and `lima-vm` declares both of
them, not just the immediately preceding step, as dependencies. -/
theorem claim_C6_cex :
    isStrictChain pipelineVm = false ∧
    (⟨"create-dirs", []⟩ : Step) ∈ pipelineVm ∧
    (⟨"create-lima-config", []⟩ : Step) ∈ pipelineVm ∧
    (⟨"lima-vm", ["create-dirs", "create-lima-config"]⟩ : Step) ∈ pipelineVm := by decide

/-- Claim C6 (amended): the no-VM variant's pipeline is a strict chain
(each step declares exactly its immediate predecessor); the VM variant's
pipeline is not: it has two independent roots, `create-dirs` and
`create-lima-config`, both declared as dependencies of `lima-vm`, and from
`lima-vm` onward it is again a strict chain. -/
theorem claim_C6 :
    isStrictChain pipelineMain = true ∧
    isStrictChain pipelineVm = false ∧
    pipelineVm.map Step.deps =
      [[], [], ["create-dirs", "create-lima-config"], ["lima-vm"],
       ["create-talos-cluster"], ["export-kubeconfig"], ["wait-for-kubernetes"],
       ["apply-security-hardening"]] ∧
    chainAfter "lima-vm" (pipelineVm.drop 3) = true := by decide

/-- Claim C7, as stated, is false: the hardening payload contains four
`kubectl label` operations, not two. -/
theorem claim_C7_cex :
    ¬ hardeningActions.countP HardenAction.isLabelOp = 2 := by decide

/-- Claim C7 (amended): the security-hardening step's create-action submits
a fixed, hard-coded payload of exactly four label operations — the Pod
Security Standards enforce and warn levels for each of the kube-system and
default namespaces, every one with `--overwrite` — followed by one
`kubectl apply` of exactly two NetworkPolicy definitions (`default-deny-all`
and `allow-dns`, both in the default namespace); the payload is a constant,
with no templating and no conditional selection. -/
theorem claim_C7 :
    hardeningActions.countP HardenAction.isLabelOp = 4 ∧
    hardeningLabelOps.length = 4 ∧
    hardeningNetworkPolicies.length = 2 ∧
    hardeningLabelOps.all (fun op => op.overwrite) = true ∧
    hardeningLabelOps.map (fun op => op.ns) =
      ["kube-system", "kube-system", "default", "default"] ∧
    hardeningNetworkPolicies.map (fun p => p.name) =
      ["default-deny-all", "allow-dns"] ∧
    hardeningActions =
      (hardeningLabelOps.map HardenAction.label) ++
        [HardenAction.applyManifests hardeningNetworkPolicies] := by decide

set_option maxRecDepth 8000 in
/-- Claim C8, as stated, is false: the two variants' cluster-creation
create scripts are not character-for-character identical. -/
theorem claim_C8_cex :
    mainClusterCreateScript ≠ vmClusterCreateScript := by decide

set_option maxRecDepth 8000 in
/-- Claim C8 (amended): the cluster-creation delete scripts of the two
variants are character-for-character identical, and the create scripts are
identical except for a single shell comment line (line index 10:
`# 1 control-plane + 2 workers for HA testing` in main.go versus
`# 1 control-plane + 2 workers` in the VM variant), so every executed
command — the existence probe on `talos-local`, the creation call with one
control plane, two workers and a 10-minute wait timeout, and the
error-suppressed destroy — is the same; the environment maps differ in this
step only in the VM variant additionally setting DOCKER_HOST. -/
theorem claim_C8 (homeDir : String) :
    mainClusterDeleteScript = vmClusterDeleteScript ∧
    mainClusterCreateScript ≠ vmClusterCreateScript ∧
    mainClusterCreateLines.length = vmClusterCreateLines.length ∧
    mainClusterCreateLines.set 10 "\t\t\t\t# 1 control-plane + 2 workers" =
      vmClusterCreateLines ∧
    mainClusterCreateLines.get? 10 =
      some "\t\t\t\t# 1 control-plane + 2 workers for HA testing" ∧
    mainClusterCreateLines.getD 10 "" =
      "\t\t\t\t#" ++ " 1 control-plane + 2 workers for HA testing" ∧
    vmClusterCreateLines.getD 10 "" = "\t\t\t\t#" ++ " 1 control-plane + 2 workers" ∧
    vmClusterEnv homeDir =
      mainClusterEnv homeDir ++
        [("DOCKER_HOST", "unix://" ++ homeDir ++ "/.lima/talos-docker/sock/docker.sock")] :=
  ⟨by decide, by decide, by decide, by decide, by decide, by decide, by decide, rfl⟩

set_option maxRecDepth 8000 in
/-- Claim C8 witness: the amended statement instantiated at a concrete home
directory. -/
theorem claim_C8_witness :
    mainClusterDeleteScript = vmClusterDeleteScript ∧
    mainClusterCreateScript ≠ vmClusterCreateScript ∧
    mainClusterCreateLines.length = vmClusterCreateLines.length ∧
    mainClusterCreateLines.set 10 "\t\t\t\t# 1 control-plane + 2 workers" =
      vmClusterCreateLines ∧
    mainClusterCreateLines.get? 10 =
      some "\t\t\t\t# 1 control-plane + 2 workers for HA testing" ∧
    mainClusterCreateLines.getD 10 "" =
      "\t\t\t\t#" ++ " 1 control-plane + 2 workers for HA testing" ∧
    vmClusterCreateLines.getD 10 "" = "\t\t\t\t#" ++ " 1 control-plane + 2 workers" ∧
    vmClusterEnv "/Users/dev" =
      mainClusterEnv "/Users/dev" ++
        [("DOCKER_HOST", "unix://" ++ "/Users/dev" ++ "/.lima/talos-docker/sock/docker.sock")] :=
  claim_C8 "/Users/dev"

/-- Claim C9: the node readiness loop breaks early exactly when the count of
Ready nodes equals the total node count and the total is strictly positive;
with an empty node list (total zero, as when the probe command fails) the
condition never holds, so the loop never declares success and exhausts all
60 iterations, while a world whose first probe already satisfies the
condition breaks after one iteration. -/
theorem claim_C9 (w v : World)
    (h : ∀ j, w.totalNodes j = 0)
    (hv : nodesReadyCond (v.readyNodes 1) (v.totalNodes 1) = true) :
    (∀ r t : Nat, nodesReadyCond r t = true ↔ (r = t ∧ 0 < t)) ∧
    (∀ r : Nat, nodesReadyCond r 0 = false) ∧
    (∀ j, nodesReadyCond (w.readyNodes j) (w.totalNodes j) = false) ∧
    (nodesWait w).iters = 60 ∧
    (∀ u : World, ∀ i fuel : Nat,
      (nodesWaitGo u i (fuel + 2)).iters = 1 ↔
        nodesReadyCond (u.readyNodes i) (u.totalNodes i) = true) ∧
    (nodesWait v).iters = 1 := by
  have hchar : ∀ r t : Nat, nodesReadyCond r t = true ↔ (r = t ∧ 0 < t) := by
    intro r t
    simp [nodesReadyCond]
  have hzero : ∀ r : Nat, nodesReadyCond r 0 = false := by
    intro r
    simp [nodesReadyCond]
  have hcond : ∀ j, nodesReadyCond (w.readyNodes j) (w.totalNodes j) = false := by
    intro j
    rw [h j]
    exact hzero _
  obtain ⟨n1, _, _, _⟩ := nodesWaitGo_stalled w hcond 60 1
  refine ⟨hchar, hzero, hcond, n1, fun u i fuel => nodesWaitGo_break_iff u i fuel, ?_⟩
  show (nodesWaitGo v 1 (59 + 1)).iters = 1
  simp [nodesWaitGo, hv]

/-- Claim C9 witness: the loop exhausts at the stalled world with an empty
node list and breaks immediately at the all-ready world. -/
theorem claim_C9_witness :
    (nodesWait wStalled).iters = 60 ∧ (nodesWait wAllOk).iters = 1 := by
  have h := claim_C9 wStalled wAllOk (fun j => rfl) (by decide)
  exact ⟨h.2.2.2.1, h.2.2.2.2.2⟩

/-- Claim C10: when the `talosctl kubeconfig` extraction succeeds but the
kubectl connectivity verification fails, the `export-kubeconfig` step still
exits 0 and echoes the warning instead of failing — so a successful export
step does not guarantee a working kubeconfig. -/
theorem claim_C10 (w : World)
    (_ht : w.talosctlKubeconfigOk = true) (hvf : w.kubectlVerifyOk = false) :
    (exportKubeconfigCreate w).exitCode = 0 ∧
    Event.echoed Msg.warningKubectl ∈ (exportKubeconfigCreate w).trace ∧
    Event.run "talosctl kubeconfig ~/.kube/talos-config --force" ∈
      (exportKubeconfigCreate w).trace := by
  refine ⟨?_, ?_, ?_⟩ <;> simp [exportKubeconfigCreate, hvf]

/-- Claim C10 witness: the statement instantiated at the world where only
the kubectl verification fails. -/
theorem claim_C10_witness :
    (exportKubeconfigCreate wVerifyFails).exitCode = 0 ∧
    Event.echoed Msg.warningKubectl ∈ (exportKubeconfigCreate wVerifyFails).trace ∧
    Event.run "talosctl kubeconfig ~/.kube/talos-config --force" ∈
      (exportKubeconfigCreate wVerifyFails).trace :=
  claim_C10 wVerifyFails rfl rfl

end TalosCluster
